import Mathlib

/-!
Shallow embedding of the Deneb beacon-state transition core of the `ream`
consensus client (crate `ream-consensus`), together with proofs about the
claims C1..C10.

Conventions of the embedding:
* Rust `u64`/`usize` values are modelled as `Nat`; where wrap-around of a
  64-bit addition matters it is written explicitly as `% U64_MOD`.
* `B256` hashes and roots are modelled as `Nat`; byte strings as `List Nat`
  (each entry one byte).
* SSZ `FixedVector` ring buffers (`block_roots`, `state_roots`,
  `randao_mixes`, `slashings`) are total arrays of a fixed power-of-two
  length, always indexed modulo their length; they are modelled as total
  functions `Nat → Nat`.
* Fallible Rust code (`anyhow::Result`, panicking indexing, panicking
  `%` by zero, panicking `Address::from_slice`) is modelled with `Option`:
  `none` is an error or panic.
* SHA-256 (`ethereum_hashing::hash`) is an external library; functions
  that consume it take the hash function as an explicit parameter.
-/

namespace Ream

/-- Modelled from the spec: the constants module
`crate::fork_choice::helpers::constants` is not part of the source tree
(only its importers are); the values below follow the specification text
(`SLOTS_PER_EPOCH = 32`, `SHUFFLE_ROUND_COUNT = 90`, justification bits of
length 4, 8192-slot root ring) and the canonical mainnet configuration for
the remaining quantities. -/
def SLOTS_PER_EPOCH : Nat := 32

def SHUFFLE_ROUND_COUNT : Nat := 90

def JUSTIFICATION_BITS_LENGTH : Nat := 4

def SLOTS_PER_HISTORICAL_ROOT : Nat := 8192

def GENESIS_EPOCH : Nat := 0

def U64_MOD : Nat := 2 ^ 64

def FAR_FUTURE_EPOCH : Nat := U64_MOD - 1

def MAX_EFFECTIVE_BALANCE : Nat := 32000000000

def EFFECTIVE_BALANCE_INCREMENT : Nat := 1000000000

def MAX_WITHDRAWALS_PER_PAYLOAD : Nat := 16

def MAX_VALIDATORS_PER_WITHDRAWALS_SWEEP : Nat := 16384

/-- `ETH1_ADDRESS_WITHDRAWAL_PREFIX` of the missing constants module: the
single byte `0x01` (renamed here). -/
def ETH1_ADDRESS_WITHDRAWAL_BYTE : Nat := 1

/-- `VariableList<_, U1099511627776>` capacity (2^40) used for the registry
and its parallel lists. -/
def VALIDATOR_REGISTRY_LIMIT : Nat := 2 ^ 40

structure Checkpoint where
  epoch : Nat
  root : Nat
  deriving DecidableEq

structure Fork where
  previous_version : Nat
  current_version : Nat
  epoch : Nat
  deriving DecidableEq

structure Eth1Data where
  deposit_root : Nat
  deposit_count : Nat
  block_hash : Nat
  deriving DecidableEq

structure Validator where
  pubkey : Nat
  withdrawal_credentials : List Nat
  effective_balance : Nat
  slashed : Bool
  activation_eligibility_epoch : Nat
  activation_epoch : Nat
  exit_epoch : Nat
  withdrawable_epoch : Nat
  deriving DecidableEq

structure BeaconBlockHeader where
  slot : Nat
  proposer_index : Nat
  parent_root : Nat
  state_root : Nat
  body_root : Nat
  deriving DecidableEq

structure SyncCommittee where
  pubkeys : List Nat
  aggregate_pubkey : Nat
  deriving DecidableEq

structure HistoricalSummary where
  block_summary_root : Nat
  state_summary_root : Nat
  deriving DecidableEq

/-- `deneb::beacon_state::BeaconState`.  The execution payload header is an
opaque container for every claim considered here and is represented by a
single `Nat` surrogate. -/
structure BeaconState where
  genesis_time : Nat
  genesis_validators_root : Nat
  slot : Nat
  fork : Fork
  latest_block_header : BeaconBlockHeader
  block_roots : Nat → Nat
  state_roots : Nat → Nat
  historical_roots : List Nat
  eth1_data : Eth1Data
  eth1_data_votes : List Eth1Data
  eth1_deposit_index : Nat
  validators : List Validator
  balances : List Nat
  randao_mixes : Nat → Nat
  slashings : Nat → Nat
  previous_epoch_participation : List Nat
  current_epoch_participation : List Nat
  justification_bits : List Bool
  previous_justified_checkpoint : Checkpoint
  current_justified_checkpoint : Checkpoint
  finalized_checkpoint : Checkpoint
  inactivity_scores : List Nat
  current_sync_committee : SyncCommittee
  next_sync_committee : SyncCommittee
  latest_execution_payload_header : Nat
  next_withdrawal_index : Nat
  next_withdrawal_validator_index : Nat
  historical_summaries : List HistoricalSummary

/-- `misc::compute_epoch_at_slot`. -/
def compute_epoch_at_slot (slot : Nat) : Nat := slot / SLOTS_PER_EPOCH

/-- `misc::compute_start_slot_at_epoch`. -/
def compute_start_slot_at_epoch (epoch : Nat) : Nat := epoch * SLOTS_PER_EPOCH

/-- `BeaconState::get_current_epoch`. -/
def BeaconState.get_current_epoch (s : BeaconState) : Nat :=
  compute_epoch_at_slot s.slot

/-- `BeaconState::get_previous_epoch`. -/
def BeaconState.get_previous_epoch (s : BeaconState) : Nat :=
  let current_epoch := s.get_current_epoch
  if current_epoch = GENESIS_EPOCH then GENESIS_EPOCH else current_epoch - 1

/-- `BeaconState::get_block_root_at_slot`; the `ensure!` range check is the
only failure, the ring-buffer index `slot % SLOTS_PER_HISTORICAL_ROOT` is
always in range of the fixed vector. -/
def BeaconState.get_block_root_at_slot (s : BeaconState) (slot : Nat) : Option Nat :=
  if slot < s.slot ∧ s.slot ≤ slot + SLOTS_PER_HISTORICAL_ROOT then
    some (s.block_roots (slot % SLOTS_PER_HISTORICAL_ROOT))
  else
    none

/-- `BeaconState::get_block_root`. -/
def BeaconState.get_block_root (s : BeaconState) (epoch : Nat) : Option Nat :=
  s.get_block_root_at_slot (compute_start_slot_at_epoch epoch)

/-- `helpers::is_active_validator`.  The source compares the epoch against
`activation_eligibility_epoch`, not `activation_epoch`. -/
def is_active_validator (validator : Validator) (epoch : Nat) : Bool :=
  decide (validator.activation_eligibility_epoch ≤ epoch) &&
    decide (epoch < validator.exit_epoch)

/-- `BeaconState::get_active_validator_indices`. -/
def get_active_validator_indices (s : BeaconState) (epoch : Nat) : List Nat :=
  s.validators.enum.filterMap
    (fun iv => if is_active_validator iv.2 epoch then some iv.1 else none)

/-- `BeaconState::increase_balance`: mutates the balance in place when the
index is in range (`balances.get_mut`), and is a silent no-op otherwise;
the `u64` addition is taken modulo `2^64`. -/
def increase_balance (s : BeaconState) (index delta : Nat) : BeaconState :=
  if h : index < s.balances.length then
    { s with balances := s.balances.set index ((s.balances.get ⟨index, h⟩ + delta) % U64_MOD) }
  else
    s

/-- `BeaconState::decrease_balance`: when the index is in range the source
evaluates `balance.saturating_sub(delta)` but binds the result to `_`,
never writing it back, so the state is returned unmodified on every path;
out of range it is likewise a silent no-op. -/
def decrease_balance (s : BeaconState) (index delta : Nat) : BeaconState :=
  if _h : index < s.balances.length then
    s
  else
    s

/-- `BeaconState::add_flag`: the source computes the mask as `2 << flag_index`
(`u8` arithmetic, hence the reduction modulo 256). -/
def add_flag (flags flag_index : Nat) : Nat :=
  let flag := 2 <<< flag_index % 256
  flags ||| flag

/-- `BeaconState::has_flag`, with the same `2 << flag_index` mask. -/
def has_flag (flags flag_index : Nat) : Bool :=
  let flag := 2 <<< flag_index % 256
  decide (flags &&& flag = flag)

/-- The `for i in active_validator_indices` loop of
`get_unslashed_participating_indices`: keeps the indices whose participation
byte has the flag; indexing `epoch_participation[i]` panics (`none`) when
`i` is out of range. -/
def participation_filter (epoch_participation : List Nat) (flag_index : Nat) :
    List Nat → Option (List Nat)
  | [] => some []
  | i :: rest =>
    match epoch_participation.get? i with
    | none => none
    | some flags =>
      match participation_filter epoch_participation flag_index rest with
      | none => none
      | some tail => if has_flag flags flag_index then some (i :: tail) else some tail

/-- The final `.filter(|&index| self.validators[index as usize].slashed)` of
`get_unslashed_participating_indices`: the source keeps exactly the SLASHED
validators; indexing `validators[index]` panics (`none`) out of range. -/
def slashed_filter (validators : List Validator) : List Nat → Option (List Nat)
  | [] => some []
  | i :: rest =>
    match validators.get? i with
    | none => none
    | some v =>
      match slashed_filter validators rest with
      | none => none
      | some tail => if v.slashed then some (i :: tail) else some tail

/-- `BeaconState::get_unslashed_participating_indices`.  The returned
`HashSet` is modelled as the list of kept indices (in registry order). -/
def get_unslashed_participating_indices (s : BeaconState) (flag_index epoch : Nat) :
    Option (List Nat) :=
  if epoch = s.get_previous_epoch ∨ epoch = s.get_current_epoch then
    let epoch_participation :=
      if epoch = s.get_current_epoch then s.current_epoch_participation
      else s.previous_epoch_participation
    match participation_filter epoch_participation flag_index
        (get_active_validator_indices s epoch) with
    | none => none
    | some participating_indices => slashed_filter s.validators participating_indices
  else
    none

/-- The justification-bit shift of `weigh_justification_and_finalization`:
`for i in 1..JUSTIFICATION_BITS_LENGTH { bit = bits.get(i - 1)?; bits.set(i, bit)? }`
followed by `bits.set(0, false)`.  The reads happen on the vector already
mutated by the earlier iterations (this is what C3 is about).  A
`BitVector<U4>` always holds exactly `JUSTIFICATION_BITS_LENGTH = 4` bits,
so the `set` calls stay in range. -/
def shift_justification_bits (bits : List Bool) : Option (List Bool) :=
  match (List.range (JUSTIFICATION_BITS_LENGTH - 1)).foldlM
      (fun bs i => (bs.get? i).map (fun bit => bs.set (i + 1) bit)) bits with
  | none => none
  | some bs => some (bs.set 0 false)

/-- `BeaconState::weigh_justification_and_finalization`.  The four trailing
`if` blocks read the Rust slices `bits[1..4]`, `bits[1..3]`, `bits[0..3]`,
`bits[0..2]` of the length-4 bit vector. -/
def BeaconState.weigh_justification_and_finalization (s : BeaconState)
    (total_active_balance previous_epoch_target_balance current_epoch_target_balance : Nat) :
    Option BeaconState :=
  let previous_epoch := s.get_previous_epoch
  let current_epoch := s.get_current_epoch
  let old_previous_justified_checkpoint := s.previous_justified_checkpoint
  let old_current_justified_checkpoint := s.current_justified_checkpoint
  let s := { s with previous_justified_checkpoint := s.current_justified_checkpoint }
  match shift_justification_bits s.justification_bits with
  | none => none
  | some bits =>
  let s := { s with justification_bits := bits }
  let step1 : Option BeaconState :=
    if previous_epoch_target_balance * 3 ≥ total_active_balance * 2 then
      match s.get_block_root previous_epoch with
      | none => none
      | some root =>
        some { s with current_justified_checkpoint := ⟨previous_epoch, root⟩,
                      justification_bits := s.justification_bits.set 1 true }
    else some s
  match step1 with
  | none => none
  | some s =>
  let step2 : Option BeaconState :=
    if current_epoch_target_balance * 3 ≥ total_active_balance * 2 then
      match s.get_block_root current_epoch with
      | none => none
      | some root =>
        some { s with current_justified_checkpoint := ⟨current_epoch, root⟩,
                      justification_bits := s.justification_bits.set 0 true }
    else some s
  match step2 with
  | none => none
  | some s =>
  let bits := s.justification_bits
  let s := if ((bits.drop 1).take 3).all (fun b => b) ∧
      old_previous_justified_checkpoint.epoch + 3 = current_epoch then
    { s with finalized_checkpoint := old_previous_justified_checkpoint } else s
  let s := if ((bits.drop 1).take 2).all (fun b => b) ∧
      old_previous_justified_checkpoint.epoch + 2 = current_epoch then
    { s with finalized_checkpoint := old_previous_justified_checkpoint } else s
  let s := if (bits.take 3).all (fun b => b) ∧
      old_current_justified_checkpoint.epoch + 2 = current_epoch then
    { s with finalized_checkpoint := old_current_justified_checkpoint } else s
  let s := if (bits.take 2).all (fun b => b) ∧
      old_current_justified_checkpoint.epoch + 1 = current_epoch then
    { s with finalized_checkpoint := old_current_justified_checkpoint } else s
  some s

structure Withdrawal where
  index : Nat
  validator_index : Nat
  address : List Nat
  amount : Nat
  deriving DecidableEq

/-- Only the `withdrawals` list of the Deneb `ExecutionPayload` is read by
`process_withdrawals`; the other payload fields are omitted. -/
structure ExecutionPayload where
  withdrawals : List Withdrawal
  deriving DecidableEq

/-- `alloy_primitives::Address::from_slice`, which panics unless the slice
has exactly the 20-byte address length. -/
def address_from_slice (l : List Nat) : Option (List Nat) :=
  if l.length = 20 then some l else none

/-- Modelled from the spec: `Validator::has_eth1_withdrawal_credential` is
called by `get_expected_withdrawals` but its definition is not in the
source tree.  Per the specification, it checks that the first
withdrawal-credential byte is the eth1-address withdrawal prefix `0x01`. -/
def has_eth1_withdrawal_credential (v : Validator) : Bool :=
  decide (v.withdrawal_credentials.take 1 = [ETH1_ADDRESS_WITHDRAWAL_BYTE])

/-- Modelled from the spec: `Validator::is_fully_withdrawable_validator`
(not in the source tree): eth1 credentials, withdrawable epoch reached,
non-zero balance. -/
def is_fully_withdrawable_validator (v : Validator) (balance epoch : Nat) : Bool :=
  has_eth1_withdrawal_credential v && decide (v.withdrawable_epoch ≤ epoch) &&
    decide (0 < balance)

/-- Modelled from the spec: `Validator::is_partially_withdrawable_validator`
(not in the source tree): eth1 credentials, effective balance capped at the
maximum, balance above the maximum. -/
def is_partially_withdrawable_validator (v : Validator) (balance : Nat) : Bool :=
  has_eth1_withdrawal_credential v &&
    decide (v.effective_balance = MAX_EFFECTIVE_BALANCE) &&
    decide (MAX_EFFECTIVE_BALANCE < balance)

/-- The sweep loop of `get_expected_withdrawals`, with the loop bound as
fuel.  Withdrawal addresses are built from
`&validator.withdrawal_credentials[..12]` — the FIRST 12 bytes — passed to
`Address::from_slice` (which demands 20 bytes); `validators[i]`/
`balances[i]` indexing panics out of range, and the final
`% validators.len()` panics when the registry is empty. -/
def get_expected_withdrawals_aux (s : BeaconState) (epoch : Nat) :
    Nat → Nat → Nat → List Withdrawal → Option (List Withdrawal)
  | 0, _, _, withdrawals => some withdrawals
  | fuel + 1, withdrawal_index, validator_index, withdrawals =>
    match s.validators.get? validator_index, s.balances.get? validator_index with
    | some validator, some balance =>
      let pushed : Option (List Withdrawal × Nat) :=
        if is_fully_withdrawable_validator validator balance epoch then
          match address_from_slice (validator.withdrawal_credentials.take 12) with
          | some address =>
            some (withdrawals ++
              [{ index := withdrawal_index, validator_index := validator_index,
                 address := address, amount := balance }], withdrawal_index + 1)
          | none => none
        else if is_partially_withdrawable_validator validator balance then
          match address_from_slice (validator.withdrawal_credentials.take 12) with
          | some address =>
            some (withdrawals ++
              [{ index := withdrawal_index, validator_index := validator_index,
                 address := address, amount := balance - MAX_EFFECTIVE_BALANCE }],
              withdrawal_index + 1)
          | none => none
        else some (withdrawals, withdrawal_index)
      match pushed with
      | none => none
      | some (withdrawals, withdrawal_index) =>
        if withdrawals.length = MAX_WITHDRAWALS_PER_PAYLOAD then some withdrawals
        else if s.validators.length = 0 then none
        else get_expected_withdrawals_aux s epoch fuel withdrawal_index
          ((validator_index + 1) % s.validators.length) withdrawals
    | _, _ => none

/-- `BeaconState::get_expected_withdrawals`. -/
def get_expected_withdrawals (s : BeaconState) : Option (List Withdrawal) :=
  get_expected_withdrawals_aux s s.get_current_epoch
    (min s.validators.length MAX_VALIDATORS_PER_WITHDRAWALS_SWEEP)
    s.next_withdrawal_index s.next_withdrawal_validator_index []

/-- `BeaconState::process_withdrawals`.  Note the source's two slips, kept
faithfully: `next_withdrawal_index` is updated under
`if expected_withdrawals.is_empty()` (indexing the last element of the
empty list, a panic), and the full-sweep branch computes
`validator_index + 1 % len` which parses as `validator_index + (1 % len)`
in Rust and in Lean alike. -/
def process_withdrawals (s : BeaconState) (payload : ExecutionPayload) :
    Option BeaconState :=
  match get_expected_withdrawals s with
  | none => none
  | some expected_withdrawals =>
    if payload.withdrawals = expected_withdrawals then
      let s := expected_withdrawals.foldl
        (fun st w => decrease_balance st w.validator_index w.amount) s
      let bumped : Option BeaconState :=
        if expected_withdrawals.isEmpty then
          match expected_withdrawals.get? (expected_withdrawals.length - 1) with
          | some latest_withdrawal =>
            some { s with next_withdrawal_index := latest_withdrawal.index + 1 }
          | none => none
        else some s
      match bumped with
      | none => none
      | some s =>
        if expected_withdrawals.length = MAX_WITHDRAWALS_PER_PAYLOAD then
          match expected_withdrawals.get? (expected_withdrawals.length - 1) with
          | some latest =>
            if s.validators.length = 0 then none
            else some { s with next_withdrawal_validator_index :=
              latest.validator_index + 1 % s.validators.length }
          | none => none
        else
          if s.validators.length = 0 then none
          else some { s with next_withdrawal_validator_index :=
            (s.next_withdrawal_validator_index + MAX_VALIDATORS_PER_WITHDRAWALS_SWEEP) %
              s.validators.length }
    else none

/-- `get_validator_from_deposit`. -/
def get_validator_from_deposit (pubkey : Nat) (withdrawal_credentials : List Nat)
    (amount : Nat) : Validator :=
  { pubkey := pubkey
    withdrawal_credentials := withdrawal_credentials
    effective_balance :=
      min (amount - amount % EFFECTIVE_BALANCE_INCREMENT) MAX_EFFECTIVE_BALANCE
    slashed := false
    activation_eligibility_epoch := FAR_FUTURE_EPOCH
    activation_epoch := FAR_FUTURE_EPOCH
    exit_epoch := FAR_FUTURE_EPOCH
    withdrawable_epoch := FAR_FUTURE_EPOCH }

/-- `BeaconState::add_validator_to_registry`: pushes to `validators` and to
`balances` only (each `VariableList::push` fails when its list is at
capacity); the participation lists and `inactivity_scores` are NOT
extended. -/
def add_validator_to_registry (s : BeaconState) (pubkey : Nat)
    (withdrawal_credentials : List Nat) (amount : Nat) : Option BeaconState :=
  if s.validators.length < VALIDATOR_REGISTRY_LIMIT then
    if s.balances.length < VALIDATOR_REGISTRY_LIMIT then
      some { s with
        validators := s.validators ++
          [get_validator_from_deposit pubkey withdrawal_credentials amount]
        balances := s.balances ++ [amount] }
    else none
  else none

/-- The §8 parallel-sequence length invariant, as a boolean. -/
def length_invariant (s : BeaconState) : Bool :=
  decide (s.balances.length = s.validators.length) &&
    decide (s.previous_epoch_participation.length = s.validators.length) &&
    decide (s.current_epoch_participation.length = s.validators.length) &&
    decide (s.inactivity_scores.length = s.validators.length)

/-- `deneb::beacon_block::BeaconBlock`; the block body is an opaque SSZ
container whose only use inside `process_block_header` is its tree-hash
root, recorded here as `body_root`. -/
structure BeaconBlock where
  slot : Nat
  proposer_index : Nat
  parent_root : Nat
  state_root : Nat
  body_root : Nat
  deriving DecidableEq

/-- The header cached by `process_block_header` (`state_root` is zeroed,
to be overwritten by the next `process_slot`). -/
def new_latest_block_header (block : BeaconBlock) : BeaconBlockHeader :=
  { slot := block.slot
    proposer_index := block.proposer_index
    parent_root := block.parent_root
    state_root := 0
    body_root := block.body_root }

/-- `BeaconState::process_block_header`.  The function is a `&mut self`
method returning `anyhow::Result<()>`; it is modelled as returning the
resulting state paired with a success flag, so that the state left behind
by a failing call is observable.  Two computations are external SHA-256
consumers and enter as parameters: `proposer_index_result` stands for
`self.get_beacon_proposer_index()` (seed hashing and balance-biased
sampling) and `latest_header_root` for
`self.latest_block_header.tree_hash_root()`.  The four `ensure!` checks
run before the header is overwritten; the slashed-proposer check runs
after. -/
def process_block_header (s : BeaconState) (block : BeaconBlock)
    (proposer_index_result : Option Nat) (latest_header_root : Nat) :
    BeaconState × Bool :=
  if s.slot = block.slot then
    if s.latest_block_header.slot < block.slot then
      match proposer_index_result with
      | some proposer_index =>
        if block.proposer_index = proposer_index then
          if block.parent_root = latest_header_root then
            let s := { s with latest_block_header := new_latest_block_header block }
            match s.validators.get? block.proposer_index with
            | some proposer => if proposer.slashed then (s, false) else (s, true)
            | none => (s, false)
          else (s, false)
        else (s, false)
      | none => (s, false)
    else (s, false)
  else (s, false)

/-- `misc::bytes_to_int64`: little-endian `u64` from the first eight bytes
of a hash output (SHA-256 outputs 32 bytes, so the slice is total). -/
def bytes_to_int64 (l : List Nat) : Nat :=
  (List.range 8).foldr (fun k acc => l.getD k 0 + 256 * acc) 0

/-- `usize::to_le_bytes` of `position / 256` as appended to the hash input. -/
def u64_le_bytes (x : Nat) : List Nat :=
  (List.range 8).map (fun k => x / 256 ^ k % 256)

/-- The pivot of one round of `compute_shuffled_index`:
`bytes_to_int64(&hash(seed ++ round)[..]) % index_count`. -/
def shuffle_pivot (hash : List Nat → List Nat) (seed : List Nat)
    (index_count round : Nat) : Nat :=
  bytes_to_int64 (hash (seed ++ [round])) % index_count

/-- `flip = (pivot + (index_count - index)) % index_count`. -/
def shuffle_flip (pivot index_count index : Nat) : Nat :=
  (pivot + (index_count - index)) % index_count

/-- The decision bit of one round:
`source = hash(seed ++ round ++ le_bytes(position / 256))`,
`byte = source[(position % 256) / 8]`, `bit = (byte >> (position % 8)) % 2`. -/
def shuffle_bit (hash : List Nat → List Nat) (seed : List Nat)
    (round position : Nat) : Nat :=
  let source := hash ((seed ++ [round]) ++ u64_le_bytes (position / 256))
  let byte := source.getD (position % 256 / 8) 0
  byte / 2 ^ (position % 8) % 2

/-- One round of the swap-or-not loop body of `misc::compute_shuffled_index`. -/
def shuffle_round (hash : List Nat → List Nat) (seed : List Nat)
    (index_count round index : Nat) : Nat :=
  let pivot := shuffle_pivot hash seed index_count round
  let flip := shuffle_flip pivot index_count index
  let position := max index flip
  if shuffle_bit hash seed round position = 1 then flip else index

/-- The `for round in 0..SHUFFLE_ROUND_COUNT` loop, the round count kept
generic for the induction. -/
def shuffle_all_rounds (hash : List Nat → List Nat) (seed : List Nat)
    (index_count rounds index : Nat) : Nat :=
  (List.range rounds).foldl
    (fun idx round => shuffle_round hash seed index_count round idx) index

/-- `misc::compute_shuffled_index`: `ensure!(index < index_count)` then the
90-round swap-or-not loop.  `hash` is the external SHA-256. -/
def compute_shuffled_index (hash : List Nat → List Nat)
    (index index_count : Nat) (seed : List Nat) : Option Nat :=
  if index < index_count then
    some (shuffle_all_rounds hash seed index_count SHUFFLE_ROUND_COUNT index)
  else
    none

/-! Concrete states and blocks used to settle the claims. -/

def empty_header : BeaconBlockHeader :=
  { slot := 0, proposer_index := 0, parent_root := 0, state_root := 0, body_root := 0 }

def empty_checkpoint : Checkpoint := { epoch := 0, root := 0 }

/-- A minimal well-formed state all examples start from. -/
def empty_state : BeaconState where
  genesis_time := 0
  genesis_validators_root := 0
  slot := 0
  fork := { previous_version := 0, current_version := 0, epoch := 0 }
  latest_block_header := empty_header
  block_roots := fun _ => 0
  state_roots := fun _ => 0
  historical_roots := []
  eth1_data := { deposit_root := 0, deposit_count := 0, block_hash := 0 }
  eth1_data_votes := []
  eth1_deposit_index := 0
  validators := []
  balances := []
  randao_mixes := fun _ => 0
  slashings := fun _ => 0
  previous_epoch_participation := []
  current_epoch_participation := []
  justification_bits := [false, false, false, false]
  previous_justified_checkpoint := empty_checkpoint
  current_justified_checkpoint := empty_checkpoint
  finalized_checkpoint := empty_checkpoint
  inactivity_scores := []
  current_sync_committee := { pubkeys := [], aggregate_pubkey := 0 }
  next_sync_committee := { pubkeys := [], aggregate_pubkey := 0 }
  latest_execution_payload_header := 0
  next_withdrawal_index := 0
  next_withdrawal_validator_index := 0
  historical_summaries := []

/-- C1: a state with a single balance of 5 Gwei. -/
def state_c1 : BeaconState := { empty_state with balances := [5] }

/-- C2: a validator whose eligibility epoch (0) precedes its activation
epoch (5). -/
def validator_c2 : Validator :=
  { pubkey := 0, withdrawal_credentials := [], effective_balance := 0,
    slashed := false, activation_eligibility_epoch := 0, activation_epoch := 5,
    exit_epoch := 10, withdrawable_epoch := 10 }

/-- C3: a state in epoch 2 whose justification bits are `[F, T, F, F]`
(epoch `current - 2` justified). -/
def state_c3 : BeaconState :=
  { empty_state with slot := 64, justification_bits := [false, true, false, false] }

/-- C4: an active validator that is not slashed. -/
def validator_c4a : Validator :=
  { pubkey := 10, withdrawal_credentials := [], effective_balance := 0,
    slashed := false, activation_eligibility_epoch := 0, activation_epoch := 0,
    exit_epoch := 10, withdrawable_epoch := 10 }

/-- C4: an active validator that IS slashed. -/
def validator_c4b : Validator := { validator_c4a with pubkey := 11, slashed := true }

/-- C4: both validators participate fully (byte 255) in the current epoch. -/
def state_c4 : BeaconState :=
  { empty_state with
    validators := [validator_c4a, validator_c4b]
    balances := [0, 0]
    previous_epoch_participation := [255, 255]
    current_epoch_participation := [255, 255]
    inactivity_scores := [0, 0] }

/-- C5: a fully withdrawable validator (eth1 credential byte, withdrawable
epoch reached); its credentials are byte `0x01` then 31 copies of `2`. -/
def validator_c5 : Validator :=
  { pubkey := 0,
    withdrawal_credentials := ETH1_ADDRESS_WITHDRAWAL_BYTE :: List.replicate 31 2,
    effective_balance := MAX_EFFECTIVE_BALANCE, slashed := false,
    activation_eligibility_epoch := 0, activation_epoch := 0,
    exit_epoch := 0, withdrawable_epoch := 0 }

def state_c5 : BeaconState :=
  { empty_state with validators := [validator_c5], balances := [5] }

/-- C6: a validator that is in no way withdrawable (no eth1 credential). -/
def validator_c6 : Validator :=
  { pubkey := 0, withdrawal_credentials := List.replicate 32 0,
    effective_balance := 0, slashed := false, activation_eligibility_epoch := 0,
    activation_epoch := 0, exit_epoch := 10, withdrawable_epoch := FAR_FUTURE_EPOCH }

def state_c6 : BeaconState :=
  { empty_state with validators := [validator_c6], balances := [5] }

/-- C7: a state satisfying the parallel-length invariant with one validator. -/
def state_c7 : BeaconState :=
  { empty_state with
    validators := [validator_c6]
    balances := [5]
    previous_epoch_participation := [0]
    current_epoch_participation := [0]
    inactivity_scores := [0] }

/-- C8: a slashed validator at index 0. -/
def validator_c8 : Validator := { validator_c6 with slashed := true }

def state_c8 : BeaconState :=
  { empty_state with slot := 1, validators := [validator_c8], balances := [5] }

/-- C8: a block passing the four precondition checks of
`process_block_header` against `state_c8` (parent root 77 matching the
`latest_header_root` parameter). -/
def block_c8 : BeaconBlock :=
  { slot := 1, proposer_index := 0, parent_root := 77, state_root := 0, body_root := 42 }

/-- C8 witness: a block whose slot does not match the state slot. -/
def block_c8_bad_slot : BeaconBlock := { block_c8 with slot := 5 }

/-- C9 witness: a stand-in for the external SHA-256 returning 32 zero
bytes on every input. -/
def zero_hash (_l : List Nat) : List Nat := List.replicate 32 0

/-! Theorems. -/

/-- C1: the claim says `decrease_balance` saturates the subtraction; in the
source the `saturating_sub` result is discarded, so `decrease_balance` is
the identity on the state, and at the failing input (a single balance of 5,
delta 3) the balance stays 5 where the claim demands 2. -/
theorem C1_decrease_balance_discards_result :
    (∀ s index delta, decrease_balance s index delta = s) ∧
    decrease_balance state_c1 0 3 = state_c1 ∧ state_c1.balances = [5] := by
  have h : ∀ s index delta, decrease_balance s index delta = s := by
    intro s index delta
    unfold decrease_balance
    split <;> rfl
  exact ⟨h, h state_c1 0 3, rfl⟩

/-- C2: the claim says `is_active_validator(v, e)` holds iff
`v.activation_epoch ≤ e < v.exit_epoch`; the source compares against
`activation_eligibility_epoch`, so a validator with eligibility epoch 0 but
activation epoch 5 is reported active at epoch 2. -/
theorem C2_is_active_validator_uses_eligibility_epoch :
    is_active_validator validator_c2 2 = true ∧
    ¬ validator_c2.activation_epoch ≤ 2 := by
  decide

/-- C3: the claim says the justification-bit shift satisfies
`b'[i+1] = b[i]`; the source copies in ascending order over the already
mutated vector, so every shifted bit receives the old bit 0: from
`[F, T, F, F]` (with no new votes) the code produces `[F, F, F, F]` where
the claim demands `b'[2] = b[1] = T`. -/
theorem C3_justification_bit_shift_loses_bits :
    state_c3.justification_bits = [false, true, false, false] ∧
    (state_c3.weigh_justification_and_finalization 1 0 0).map
      (fun s => s.justification_bits) = some [false, false, false, false] := by
  decide

/-- C4: the claim says the result is exactly the unslashed active
participants; the source's final filter keeps exactly the SLASHED ones:
with validator 0 active+participating+unslashed and validator 1
active+participating+slashed, the function returns `{1}`. -/
theorem C4_unslashed_participating_keeps_slashed :
    get_unslashed_participating_indices state_c4 0 0 = some [1] ∧
    (state_c4.validators.get? 0).map (fun v => v.slashed) = some false ∧
    (state_c4.validators.get? 0).map (fun v => is_active_validator v 0) = some true ∧
    (state_c4.current_epoch_participation.get? 0).map (fun f => has_flag f 0) =
      some true ∧
    (state_c4.validators.get? 1).map (fun v => v.slashed) = some true := by
  decide

/-- C5: the claim says every produced withdrawal's address is bytes
`[12..32]` of the credentials; the source passes the FIRST 12 bytes
(`[..12]`) to the 20-byte `Address::from_slice`, so at a state with one
fully withdrawable validator the sweep panics (models as `none`) instead
of producing the address from the last 20 bytes. -/
theorem C5_withdrawal_address_built_from_first_twelve_bytes :
    is_fully_withdrawable_validator validator_c5 5 0 = true ∧
    (validator_c5.withdrawal_credentials.take 12).length = 12 ∧
    (validator_c5.withdrawal_credentials.drop 12).length = 20 ∧
    get_expected_withdrawals state_c5 = none := by
  decide

/-- C6: the claim says an empty expected-withdrawals list leaves
`next_withdrawal_index` unchanged and succeeds; the source's inverted
guard indexes the last element of the EMPTY list in that case, a panic
(models as `none`). -/
theorem C6_process_withdrawals_empty_case_panics :
    get_expected_withdrawals state_c6 = some [] ∧
    (process_withdrawals state_c6 { withdrawals := [] }).isSome = false := by
  decide

/-- C7: the claim says deposit processing preserves the five-way length
invariant; `add_validator_to_registry` pushes only to `validators` and
`balances`, so from a state satisfying the invariant with one validator it
produces |validators| = |balances| = 2 while both participation lists and
`inactivity_scores` stay at length 1. -/
theorem C7_add_validator_breaks_length_invariant :
    length_invariant state_c7 = true ∧
    (add_validator_to_registry state_c7 0 [] 7).map length_invariant = some false ∧
    (add_validator_to_registry state_c7 0 [] 7).map (fun s =>
      (s.validators.length, s.balances.length, s.previous_epoch_participation.length,
       s.current_epoch_participation.length, s.inactivity_scores.length)) =
      some (2, 2, 1, 1, 1) := by
  decide

/-- C8 counterexample: `process_block_header` can fail AFTER overwriting
`latest_block_header` — with a slashed proposer passing the four
precondition checks, the call errors yet the cached header has changed, so
the state is not left exactly as it was. -/
theorem C8_counterexample_header_mutated_on_error :
    (process_block_header state_c8 block_c8 (some 0) 77).2 = false ∧
    (process_block_header state_c8 block_c8 (some 0) 77).1.latest_block_header ≠
      state_c8.latest_block_header := by
  decide

/-- C8 (amended): `process_block_header` mutates at most
`latest_block_header`, and when ANY of its four precondition checks fails
— slot mismatch, non-monotone header slot, proposer index not matching the
`get_beacon_proposer_index` result (including an error of that
computation), or parent-root mismatch — it rejects with the state exactly
unchanged; only the slashed-proposer rejection happens after the header
was overwritten. -/
theorem C8_process_block_header_mutates_at_most_header
    (s : BeaconState) (block : BeaconBlock) (proposer_index_result : Option Nat)
    (latest_header_root : Nat) :
    ((process_block_header s block proposer_index_result latest_header_root).1 = s ∨
      (process_block_header s block proposer_index_result latest_header_root).1 =
        { s with latest_block_header := new_latest_block_header block }) ∧
    (s.slot ≠ block.slot ∨ ¬ s.latest_block_header.slot < block.slot ∨
        block.proposer_index ∉ proposer_index_result ∨
        block.parent_root ≠ latest_header_root →
      process_block_header s block proposer_index_result latest_header_root =
        (s, false)) := by
  constructor
  · unfold process_block_header
    repeat' split
    all_goals try (left; rfl)
    all_goals (right; cases hx : s.validators.get? block.proposer_index)
    all_goals simp only [hx]
    all_goals first
      | rfl
      | (split <;> rfl)
  · intro h
    unfold process_block_header
    by_cases h1 : s.slot = block.slot
    · rw [if_pos h1]
      by_cases h2 : s.latest_block_header.slot < block.slot
      · rw [if_pos h2]
        cases hpr : proposer_index_result with
        | none => rfl
        | some proposer_index =>
          dsimp only
          by_cases h3 : block.proposer_index = proposer_index
          · rw [if_pos h3]
            by_cases h4 : block.parent_root = latest_header_root
            · exfalso
              rcases h with h | h | h | h
              · exact h h1
              · exact h h2
              · exact h (by rw [hpr]; exact Option.mem_def.mpr (by rw [h3]))
              · exact h h4
            · rw [if_neg h4]
          · rw [if_neg h3]
      · rw [if_neg h2]
    · rw [if_neg h1]

theorem C8_witness_slot_mismatch_leaves_state :
    state_c8.slot ≠ block_c8_bad_slot.slot ∧
    process_block_header state_c8 block_c8_bad_slot (some 0) 77 = (state_c8, false) :=
  ⟨by decide, (C8_process_block_header_mutates_at_most_header state_c8 block_c8_bad_slot
      (some 0) 77).2 (Or.inl (by decide))⟩

/-- C10: for an index at or beyond `|balances|`, both balance updates hit
the `get_mut = None` arm and return with the state untouched. -/
theorem C10_out_of_range_balance_updates_are_noops
    (s : BeaconState) (index delta : Nat) (h : s.balances.length ≤ index) :
    increase_balance s index delta = s ∧ decrease_balance s index delta = s := by
  constructor
  · unfold increase_balance
    rw [dif_neg (by omega)]
  · unfold decrease_balance
    split <;> rfl

theorem C10_witness :
    empty_state.balances.length ≤ 0 ∧
    (increase_balance empty_state 0 1 = empty_state ∧
     decrease_balance empty_state 0 1 = empty_state) :=
  ⟨by decide, C10_out_of_range_balance_updates_are_noops empty_state 0 1 (by decide)⟩

/-! The swap-or-not shuffle (C9).  Each round of `compute_shuffled_index`
is an involution on `[0, index_count)` — the flip map is a modular
reflection, and the decision bit depends only on the unordered pair
`{index, flip}` through `position = max index flip` — hence every round,
and therefore the whole 90-round loop, permutes `[0, index_count)`. -/

theorem shuffle_flip_lt (pivot index_count index : Nat) (hn : 0 < index_count) :
    shuffle_flip pivot index_count index < index_count :=
  Nat.mod_lt _ hn

theorem shuffle_flip_flip (pivot index_count index : Nat) (hp : pivot < index_count)
    (hidx : index < index_count) :
    shuffle_flip pivot index_count (shuffle_flip pivot index_count index) = index := by
  unfold shuffle_flip
  rcases le_or_lt index pivot with hle | hlt
  · have h1 : (pivot + (index_count - index)) % index_count = pivot - index := by
      have he : pivot + (index_count - index) = (pivot - index) + index_count := by omega
      rw [he, Nat.add_mod_right, Nat.mod_eq_of_lt (by omega)]
    rw [h1]
    have he2 : pivot + (index_count - (pivot - index)) = index + index_count := by omega
    rw [he2, Nat.add_mod_right, Nat.mod_eq_of_lt hidx]
  · have h1 : (pivot + (index_count - index)) % index_count =
        pivot + (index_count - index) :=
      Nat.mod_eq_of_lt (by omega)
    rw [h1]
    have he2 : pivot + (index_count - (pivot + (index_count - index))) = index := by
      omega
    rw [he2, Nat.mod_eq_of_lt hidx]

theorem shuffle_round_lt (hash : List Nat → List Nat) (seed : List Nat)
    (index_count round index : Nat) (hn : 0 < index_count) (h : index < index_count) :
    shuffle_round hash seed index_count round index < index_count := by
  simp only [shuffle_round]
  split
  · exact shuffle_flip_lt _ _ _ hn
  · exact h

theorem shuffle_round_involution (hash : List Nat → List Nat) (seed : List Nat)
    (index_count round index : Nat) (hn : 0 < index_count) (h : index < index_count) :
    shuffle_round hash seed index_count round
      (shuffle_round hash seed index_count round index) = index := by
  have hp : shuffle_pivot hash seed index_count round < index_count := Nat.mod_lt _ hn
  set p := shuffle_pivot hash seed index_count round with hpdef
  have hff : shuffle_flip p index_count (shuffle_flip p index_count index) = index :=
    shuffle_flip_flip p index_count index hp h
  simp only [shuffle_round, ← hpdef]
  by_cases hbit :
      shuffle_bit hash seed round (max index (shuffle_flip p index_count index)) = 1
  · simp only [if_pos hbit, hff]
    rw [max_comm, if_pos hbit]
  · simp only [if_neg hbit]

theorem shuffle_round_inj (hash : List Nat → List Nat) (seed : List Nat)
    (index_count round a b : Nat) (hn : 0 < index_count) (ha : a < index_count)
    (hb : b < index_count)
    (hab : shuffle_round hash seed index_count round a =
      shuffle_round hash seed index_count round b) : a = b := by
  have h2 := congrArg (shuffle_round hash seed index_count round) hab
  rwa [shuffle_round_involution hash seed index_count round a hn ha,
    shuffle_round_involution hash seed index_count round b hn hb] at h2

theorem shuffle_all_rounds_lt (hash : List Nat → List Nat) (seed : List Nat)
    (index_count rounds index : Nat) (hn : 0 < index_count) (h : index < index_count) :
    shuffle_all_rounds hash seed index_count rounds index < index_count := by
  induction rounds with
  | zero => simpa [shuffle_all_rounds] using h
  | succ k ih =>
    unfold shuffle_all_rounds at ih ⊢
    rw [List.range_succ, List.foldl_append, List.foldl_cons, List.foldl_nil]
    exact shuffle_round_lt hash seed index_count k _ hn ih

theorem shuffle_all_rounds_inj (hash : List Nat → List Nat) (seed : List Nat)
    (index_count rounds : Nat) (hn : 0 < index_count) :
    ∀ a b, a < index_count → b < index_count →
      shuffle_all_rounds hash seed index_count rounds a =
        shuffle_all_rounds hash seed index_count rounds b → a = b := by
  induction rounds with
  | zero =>
    intro a b _ _ hab
    simpa [shuffle_all_rounds] using hab
  | succ k ih =>
    intro a b ha hb hab
    unfold shuffle_all_rounds at hab
    simp only [List.range_succ, List.foldl_append, List.foldl_cons, List.foldl_nil] at hab
    have hA := shuffle_all_rounds_lt hash seed index_count k a hn ha
    have hB := shuffle_all_rounds_lt hash seed index_count k b hn hb
    exact ih a b ha hb (shuffle_round_inj hash seed index_count k _ _ hn hA hB hab)

/-- C9: for positive `index_count` and any seed (and any stand-in for the
external SHA-256), `compute_shuffled_index` errors exactly on
`index ≥ index_count`, succeeds on every `index < index_count` with the
90-round swap-or-not value, and that value map is a bijection of
`[0, index_count)` onto itself. -/
theorem C9_compute_shuffled_index_is_permutation (hash : List Nat → List Nat)
    (seed : List Nat) (index_count : Nat) (hn : 0 < index_count) :
    (∀ index, index_count ≤ index →
      compute_shuffled_index hash index index_count seed = none) ∧
    (∀ index, index < index_count →
      compute_shuffled_index hash index index_count seed =
        some (shuffle_all_rounds hash seed index_count SHUFFLE_ROUND_COUNT index)) ∧
    Set.BijOn (shuffle_all_rounds hash seed index_count SHUFFLE_ROUND_COUNT)
      (Set.Iio index_count) (Set.Iio index_count) := by
  refine ⟨?_, ?_, ?_⟩
  · intro index hge
    unfold compute_shuffled_index
    rw [if_neg (by omega)]
  · intro index hlt
    unfold compute_shuffled_index
    rw [if_pos hlt]
  · have hmaps : Set.MapsTo
        (shuffle_all_rounds hash seed index_count SHUFFLE_ROUND_COUNT)
        (Set.Iio index_count) (Set.Iio index_count) := by
      intro x hx
      exact shuffle_all_rounds_lt hash seed index_count SHUFFLE_ROUND_COUNT x hn hx
    have hinj : Set.InjOn
        (shuffle_all_rounds hash seed index_count SHUFFLE_ROUND_COUNT)
        (Set.Iio index_count) := by
      intro a ha b hb hab
      exact shuffle_all_rounds_inj hash seed index_count SHUFFLE_ROUND_COUNT hn
        a b ha hb hab
    exact ((Set.finite_Iio index_count).injOn_iff_bijOn_of_mapsTo hmaps).mp hinj

theorem C9_witness :
    0 < 3 ∧
    Set.BijOn (shuffle_all_rounds zero_hash [] 3 SHUFFLE_ROUND_COUNT)
      (Set.Iio 3) (Set.Iio 3) :=
  ⟨by decide,
    (C9_compute_shuffled_index_is_permutation zero_hash [] 3 (by decide)).2.2⟩

end Ream

